import Mathlib

/-!
Shallow embedding of the quiz-posting pipeline in `src/main.py`.

Documents are modelled as the list of their paragraph texts (python-docx
exposes `doc.paragraphs`, each with a `.text`); Mongo collections used as
key/value stores are modelled as association lists in insertion order;
the values Python passes around for a quiz explanation (`None`, a float
`nan`, a string) are modelled by the inductive `PyVal`; the file-system
side effects of the rendering phase are modelled by a trace of `FileOp`s.
-/

/-- Substring occurrence on character lists: does `needle` occur
contiguously in the second list?  Models Python's `in` test on strings. -/
def listInfixOf (needle : List Char) : List Char → Bool
  | [] => needle.isEmpty
  | c :: rest => needle.isPrefixOf (c :: rest) || listInfixOf needle rest

/-- `strContains hay needle` models the Python expression `needle in hay`. -/
def strContains (hay needle : String) : Bool :=
  listInfixOf needle.toList hay.toList

/-- Does a paragraph's text contain the start placeholder
(`'<<START_CONTENT>>' in paragraph.text`, src/main.py line 161)? -/
def startIn (p : String) : Bool := strContains p "<<START_CONTENT>>"

/-- Does a paragraph's text contain the end placeholder
(`'<<END_CONTENT>>' in paragraph.text`, src/main.py line 163)? -/
def endIn (p : String) : Bool := strContains p "<<END_CONTENT>>"

/-- The placeholder scan of `update_document_with_content`
(src/main.py lines 157-165): iterate over the paragraphs with index `i`,
on a start hit overwrite `content_start` with `i` and continue, on an
end hit (the `elif` branch, so only for a paragraph without a start hit)
record `content_end := i` and `break`. -/
def scanParagraphs : List String → Nat → Option Nat → Option Nat × Option Nat
  | [], _, content_start => (content_start, none)
  | p :: rest, i, content_start =>
    if startIn p then
      scanParagraphs rest (i + 1) (some i)
    else if endIn p then
      (content_start, some i)
    else
      scanParagraphs rest (i + 1) content_start

/-- The `(content_start, content_end)` pair computed by the loop in
src/main.py lines 157-165 for a document given by its paragraph texts. -/
def findPlaceholders (paras : List String) : Option Nat × Option Nat :=
  scanParagraphs paras 0 none

/-- The descending index list `range(content_end - 1, content_start, -1)`
of src/main.py line 169. -/
def descRange (s e : Nat) : List Nat :=
  (List.range (e - 1 - s)).map (fun k => e - 1 - k)

/-- The removal loop of src/main.py lines 169-170: for each index of
`descRange`, in order, remove the paragraph currently at that index. -/
def removeLoop (paras : List String) (s e : Nat) : List String :=
  (descRange s e).foldl (fun d i => d.eraseIdx i) paras

/-- A Python value that can reach the `explanation` parameter of
`send_quiz_to_channel`: `None`, a float `nan`, or a string.  Only the
distinctions tested at src/main.py line 122 are represented. -/
inductive PyVal where
  | pyNone : PyVal
  | pyNaN : PyVal
  | pyStr : String → PyVal
  deriving DecidableEq

/-- A Mongo question document, with the fields the script reads via
`q.get(...)`; an absent field is `none`. -/
structure Question where
  question : Option String
  optionA : Option String
  optionB : Option String
  optionC : Option String
  optionD : Option String
  answer : Option String
  explanation : Option PyVal
  deriving DecidableEq

/-- The paragraphs appended for one question by src/main.py lines 181-202:
`add_paragraph` appends at the end of the document and
`insert_paragraph_before()` puts an empty paragraph directly before the
just-appended question paragraph, so each question contributes an empty
line, the question, the four options, the answer and a blank line. -/
def renderQuestion (q : Question) : List String :=
  ["",
   "Q: " ++ q.question.getD "No question text",
   "A) " ++ q.optionA.getD "No option",
   "B) " ++ q.optionB.getD "No option",
   "C) " ++ q.optionC.getD "No option",
   "D) " ++ q.optionD.getD "No option",
   "Answer: " ++ q.answer.getD "Not provided",
   ""]

/-- Observable outcome of `update_document_with_content`
(src/main.py lines 150-209): the paragraph texts of the document written
by `doc.save` (line 207, executed on every path), and whether the
placeholder pair was found (line 167; otherwise only a warning is logged
at line 204 — the function never raises for missing placeholders). -/
structure UpdateResult where
  saved : List String
  placeholdersFound : Bool
  deriving DecidableEq

/-- `update_document_with_content` (src/main.py lines 150-209) on the
paragraph-text model: scan for the placeholders; if both were found,
remove the paragraphs strictly between them in reverse index order
(lines 169-170), overwrite the text of the start-marker paragraph with
the intro message (lines 173-174), and append the rendered questions at
the end of the document (lines 181-202); otherwise leave the paragraphs
untouched.  In both cases the document is saved (lines 206-207). -/
def update_document_with_content (paras : List String) (intro_message : String)
    (questions : List Question) : UpdateResult :=
  match findPlaceholders paras with
  | (some content_start, some content_end) =>
    let cleared := removeLoop paras content_start content_end
    let withIntro := cleared.set content_start intro_message
    ⟨withIntro ++ (questions.map renderQuestion).flatten, true⟩
  | _ => ⟨paras, false⟩

/-- Python's `str.lower()` restricted to the ASCII case mapping. -/
def pyLower (s : String) : String := String.mk (s.toList.map Char.toLower)

/-- `get_correct_option_index` (src/main.py lines 49-51):
`{'a': 0, 'b': 1, 'c': 2, 'd': 3}.get(answer_key.lower(), None)`. -/
def get_correct_option_index (answer_key : String) : Option Nat :=
  if pyLower answer_key = "a" then some 0
  else if pyLower answer_key = "b" then some 1
  else if pyLower answer_key = "c" then some 2
  else if pyLower answer_key = "d" then some 3
  else none

/-- The arguments of the `bot.send_poll` call issued by
`send_quiz_to_channel` (src/main.py lines 126-135). -/
structure Poll where
  question : String
  options : List String
  correct_option_id : Nat
  explanation : PyVal
  deriving DecidableEq

/-- `send_quiz_to_channel` (src/main.py lines 119-138) as the poll it
sends: the channel tag is appended to the question text (line 120) and a
`None` or float-`nan` explanation is replaced by `"@CurrentAdda"`
(lines 122-123); every other value is passed through unchanged. -/
def send_quiz_to_channel (question : String) (options : List String)
    (correct_option_index : Nat) (explanation : PyVal) : Poll :=
  { question := question ++ "\n[@CurrentAdda]",
    options := options,
    correct_option_id := correct_option_index,
    explanation :=
      match explanation with
      | PyVal.pyNone => PyVal.pyStr "@CurrentAdda"
      | PyVal.pyNaN => PyVal.pyStr "@CurrentAdda"
      | v => v }

/-- The poll loop of `main` (src/main.py lines 284-293): for each
question compute the option index from `question.get('Answer', 'a')`;
a question whose index is `None` is skipped silently, every other
question is sent as a poll via `send_quiz_to_channel`. -/
def mainPolls (questions : List Question) : List Poll :=
  questions.filterMap fun q =>
    match get_correct_option_index (q.answer.getD "a") with
    | some idx =>
      some (send_quiz_to_channel (q.question.getD "No question text")
        [q.optionA.getD "No option", q.optionB.getD "No option",
         q.optionC.getD "No option", q.optionD.getD "No option"]
        idx (q.explanation.getD PyVal.pyNone))
    | none => none

/-- `find_one({key: k})` on an association-list model of a Mongo
collection: the first entry whose key equals `k`. -/
def findEntry {κ : Type} [DecidableEq κ] : List (κ × Nat) → κ → Option Nat
  | [], _ => none
  | (k, v) :: rest, key => if k = key then some v else findEntry rest key

/-- `update_one({key: k}, {'$set': {value: v}})`: replace the value of
the first entry whose key equals `k`, leaving everything else alone. -/
def setEntry {κ : Type} [DecidableEq κ] : List (κ × Nat) → κ → Nat → List (κ × Nat)
  | [], _, _ => []
  | (k, v) :: rest, key, n =>
    if k = key then (k, n) :: rest else (k, v) :: setEntry rest key n

/-- `get_quiz_number` (src/main.py lines 70-81) over the
`QuizCounters.Counters` collection modelled as an association list from
collection name to count: if a counter record exists, increment it and
return the new count; otherwise insert a record with count 1 and
return 1.  Returns the new store and the returned count. -/
def get_quiz_number (store : List (String × Nat)) (collection_name : String) :
    List (String × Nat) × Nat :=
  match findEntry store collection_name with
  | some c => (setEntry store collection_name (c + 1), c + 1)
  | none => (store ++ [(collection_name, 1)], 1)

/-- `find_one(sort=[('date', -1)])`: the record with the maximal date;
on ties the earliest-inserted record is kept. -/
def maxDateRecord : List (Nat × Nat) → Option (Nat × Nat)
  | [] => none
  | (d, v) :: rest =>
    match maxDateRecord rest with
    | none => some (d, v)
    | some (d2, v2) => if d < d2 then some (d2, v2) else some (d, v)

/-- `get_quiz_day` (src/main.py lines 53-68) over the `QuizDays.Days`
collection modelled as an association list from date (an ordinal) to day
number: if a record for today exists return its day; otherwise insert a
record whose day is one more than the latest recorded day (or 1 for an
empty collection) and return it. -/
def get_quiz_day (store : List (Nat × Nat)) (today : Nat) :
    List (Nat × Nat) × Nat :=
  match findEntry store today with
  | some day => (store, day)
  | none =>
    let new_day := match maxDateRecord store with
      | none => 1
      | some (_, d) => d + 1
    (store ++ [(today, new_day)], new_day)

/-- A file-system side effect of the rendering phase. -/
inductive FileOp where
  | create (path : String) : FileOp
  | rename (src dst : String) : FileOp
  | remove (path : String) : FileOp
  deriving DecidableEq

/-- Is this operation a file removal? -/
def FileOp.isRemove : FileOp → Bool
  | FileOp.remove _ => true
  | _ => false

/-- `tempfile.gettempdir()` with a trailing separator. -/
def tmpDir : String := "/tmp/"

/-- The path `doc.save` writes to (src/main.py line 206). -/
def updatedDocPath (collection_name : String) (quiz_number : Nat) : String :=
  tmpDir ++ collection_name ++ " Quiz " ++ toString quiz_number ++ ".docx"

/-- The path LibreOffice writes the converted file to
(src/main.py line 221). -/
def pdfTempPath (collection_name : String) (quiz_number : Nat) : String :=
  tmpDir ++ collection_name ++ " Quiz " ++ toString quiz_number ++ ".pdf"

/-- The final artifact path built in `main` (src/main.py line 297). -/
def pdfFinalPath (collection_name : String) (quiz_number overall : Nat) : String :=
  tmpDir ++ collection_name ++ " Quiz " ++ toString quiz_number ++
    " - Overall " ++ toString overall ++ ".pdf"

/-- File operations performed by `update_document_with_content`
(src/main.py lines 151-153 and 206-207): the `NamedTemporaryFile`
template copy is created with `delete=False` and the updated document is
saved; nothing is ever removed. -/
def updateDocumentFileOps (temp_docx_path collection_name : String)
    (quiz_number : Nat) : List FileOp :=
  [FileOp.create temp_docx_path,
   FileOp.create (updatedDocPath collection_name quiz_number)]

/-- File operations performed by `convert_docx_to_pdf`
(src/main.py lines 211-233): on a successful conversion LibreOffice
creates the derived-name file, which is then renamed to the final path;
on failure an exception propagates with no file created and nothing
cleaned up.  No removal happens on either path. -/
def convertFileOps (collection_name : String) (quiz_number overall : Nat)
    (conversion_ok : Bool) : List FileOp :=
  if conversion_ok then
    [FileOp.create (pdfTempPath collection_name quiz_number),
     FileOp.rename (pdfTempPath collection_name quiz_number)
       (pdfFinalPath collection_name quiz_number overall)]
  else []

/-- The file-operation trace of the rendering-and-delivery tail of
`main` (src/main.py lines 295-300): `update_document_with_content`
followed by `convert_docx_to_pdf`; `send_pdf_to_channel` only reads the
artifact.  `main` contains no `finally`, no context-managed deletion and
no `os.remove`/`os.unlink` call, so no exit path removes any file. -/
def mainRenderFileOps (temp_docx_path collection_name : String)
    (quiz_number overall : Nat) (conversion_ok : Bool) : List FileOp :=
  updateDocumentFileOps temp_docx_path collection_name quiz_number ++
    convertFileOps collection_name quiz_number overall conversion_ok

/-- Outcome of one attempt to send the artifact to the channel. -/
inductive DeliveryOutcome where
  | success : DeliveryOutcome
  | transientFailure : DeliveryOutcome
  | permanentFailure : DeliveryOutcome
  deriving DecidableEq

/-- `send_pdf_to_channel` (src/main.py lines 235-255) against an oracle
giving the outcome each attempt would have: the body is a single
`try`/`except` with no loop, no sleep and no re-raise — exactly one send
is attempted (`attemptOutcome 0`), a `TelegramError` is logged and
swallowed.  Returns the number of attempts made and whether the document
was delivered. -/
def send_pdf_to_channel (attemptOutcome : Nat → DeliveryOutcome) : Nat × Bool :=
  (1, match attemptOutcome 0 with
      | DeliveryOutcome.success => true
      | DeliveryOutcome.transientFailure => false
      | DeliveryOutcome.permanentFailure => false)

/-- Delivery oracle that fails transiently on the first two attempts and
would succeed from the third on. -/
def transientTwiceThenSuccess : Nat → DeliveryOutcome :=
  fun n => if n < 2 then DeliveryOutcome.transientFailure else DeliveryOutcome.success

/-- A question whose answer key maps to no option index. -/
def qInvalidAnswer : Question :=
  { question := some "Capital of France?",
    optionA := some "Paris",
    optionB := some "Lyon",
    optionC := some "Nice",
    optionD := some "Lille",
    answer := some "e",
    explanation := none }

theorem eraseIdx_take_drop {α : Type} (l : List α) (i : Nat) :
    l.eraseIdx i = l.take i ++ l.drop (i + 1) := by
  induction l generalizing i with
  | nil => simp [List.eraseIdx]
  | cons a t ih =>
    cases i with
    | zero => simp [List.eraseIdx]
    | succ j => simp [List.eraseIdx, ih j]

theorem descRange_nil (s e : Nat) (h : e ≤ s + 1) : descRange s e = [] := by
  unfold descRange
  have h0 : e - 1 - s = 0 := by omega
  rw [h0]
  rfl

theorem descRange_cons (s e : Nat) (h : s + 1 < e) :
    descRange s e = (e - 1) :: descRange s (e - 1) := by
  unfold descRange
  obtain ⟨n, hn⟩ : ∃ n, e - 1 - s = n + 1 := ⟨e - 2 - s, by omega⟩
  have h2 : e - 1 - 1 - s = n := by omega
  rw [hn, h2, List.range_succ_eq_map, List.map_cons, List.map_map]
  have hfun : ((fun k => e - 1 - k) ∘ Nat.succ) = (fun k => e - 1 - 1 - k) := by
    funext k
    simp only [Function.comp]
    omega
  rw [hfun]
  simp

theorem removeLoop_spec (n : Nat) : ∀ (paras : List String) (s : Nat),
    s + 1 + n ≤ paras.length →
    removeLoop paras s (s + 1 + n) = paras.take (s + 1) ++ paras.drop (s + 1 + n) := by
  induction n with
  | zero =>
    intro paras s h
    unfold removeLoop
    rw [descRange_nil s (s + 1 + 0) (by omega)]
    simp [List.take_append_drop]
  | succ n ih =>
    intro paras s h
    unfold removeLoop
    rw [descRange_cons s (s + 1 + (n + 1)) (by omega)]
    have he : s + 1 + (n + 1) - 1 = s + 1 + n := by omega
    rw [he, List.foldl_cons]
    have hlt : s + 1 + n < paras.length := by omega
    have hlen : (paras.eraseIdx (s + 1 + n)).length = paras.length - 1 := by
      rw [List.length_eraseIdx]
      simp [hlt]
    have := ih (paras.eraseIdx (s + 1 + n)) s (by omega)
    unfold removeLoop at this
    rw [this]
    rw [eraseIdx_take_drop]
    have htl : (paras.take (s + 1 + n)).length = s + 1 + n := by
      rw [List.length_take]
      omega
    rw [List.take_append_eq_append_take, List.drop_append_eq_append_drop, htl]
    have h1 : s + 1 - (s + 1 + n) = 0 := by omega
    have h2 : s + 1 + n - (s + 1 + n) = 0 := by omega
    rw [h1, h2]
    simp only [List.take_zero, List.drop_zero, List.append_nil]
    rw [List.take_take]
    have h3 : min (s + 1) (s + 1 + n) = s + 1 := by omega
    rw [h3]
    have h4 : List.drop (s + 1 + n) (List.take (s + 1 + n) paras) = [] := by
      apply List.drop_eq_nil_of_le
      rw [htl]
    rw [h4]
    simp only [List.nil_append]
    have h5 : s + 1 + n + 1 = s + 1 + (n + 1) := by omega
    rw [h5]

theorem removeLoop_eq (paras : List String) (s e : Nat)
    (hse : s < e) (hel : e ≤ paras.length) :
    removeLoop paras s e = paras.take (s + 1) ++ paras.drop e := by
  have h := removeLoop_spec (e - s - 1) paras s (by omega)
  have he : s + 1 + (e - s - 1) = e := by omega
  rw [he] at h
  exact h

/-- C7: when both markers are found, the removal loop of
`update_document_with_content` (src/main.py lines 169-170) walks the
indices `content_end - 1, ..., content_start + 1` in reverse order — so
no not-yet-removed index shifts — and removes exactly the paragraphs
strictly between the markers: the result is the prefix up to and
including the start marker followed by the suffix from the end marker
on, and both marker paragraphs survive (the `removeLoop` definition is
the literal reverse-index loop; this theorem is its correctness). -/
theorem removeLoop_removes_between (paras : List String) (s e : Nat)
    (hse : s < e) (hel : e ≤ paras.length) :
    removeLoop paras s e = paras.take (s + 1) ++ paras.drop e ∧
    (removeLoop paras s e).take (s + 1) = paras.take (s + 1) ∧
    (removeLoop paras s e).drop (s + 1) = paras.drop e := by
  have hmain := removeLoop_eq paras s e hse hel
  have htl : (paras.take (s + 1)).length = s + 1 := by
    rw [List.length_take]
    omega
  refine ⟨hmain, ?_, ?_⟩
  · rw [hmain, List.take_append_eq_append_take, htl, Nat.sub_self]
    simp [List.take_take]
  · rw [hmain, List.drop_append_eq_append_drop, htl, Nat.sub_self]
    have h4 : List.drop (s + 1) (List.take (s + 1) paras) = [] :=
      List.drop_eq_nil_of_le (le_of_eq htl)
    rw [h4, List.drop_zero, List.nil_append]

/-- Witness for C7 at a concrete document: markers at indices 1 and 4,
the two paragraphs between them are removed, the markers survive. -/
theorem removeLoop_removes_between_witness :
    1 < 4 ∧ 4 ≤ (["a", "S", "x", "y", "E", "b"] : List String).length ∧
    (removeLoop ["a", "S", "x", "y", "E", "b"] 1 4 =
        (["a", "S", "x", "y", "E", "b"] : List String).take 2 ++
          (["a", "S", "x", "y", "E", "b"] : List String).drop 4 ∧
      (removeLoop ["a", "S", "x", "y", "E", "b"] 1 4).take 2 =
        (["a", "S", "x", "y", "E", "b"] : List String).take 2 ∧
      (removeLoop ["a", "S", "x", "y", "E", "b"] 1 4).drop 2 =
        (["a", "S", "x", "y", "E", "b"] : List String).drop 4) :=
  ⟨by decide, by decide,
    removeLoop_removes_between ["a", "S", "x", "y", "E", "b"] 1 4 (by decide) (by decide)⟩

theorem scanParagraphs_bounds (l : List String) : ∀ (i : Nat) (cs : Option Nat),
    (∀ s0, cs = some s0 → s0 < i) →
    ∀ os e, scanParagraphs l i cs = (os, some e) →
    i ≤ e ∧ e - i < l.length ∧ ∀ s2, os = some s2 → s2 < e := by
  induction l with
  | nil =>
    intro i cs _ os e h
    simp [scanParagraphs] at h
  | cons p rest ih =>
    intro i cs hcs os e h
    by_cases hs : startIn p
    · rw [scanParagraphs, if_pos hs] at h
      have := ih (i + 1) (some i) (by intro s0 hs0; injection hs0 with hh; omega) os e h
      refine ⟨by omega, by simp [List.length_cons]; omega, this.2.2⟩
    · by_cases hend : endIn p
      · rw [scanParagraphs, if_neg hs, if_pos hend] at h
        injection h with h1 h2
        injection h2 with h2
        subst h1
        subst h2
        exact ⟨le_refl _, by simp [List.length_cons], fun s2 hs2 => hcs s2 hs2⟩
      · rw [scanParagraphs, if_neg hs, if_neg hend] at h
        have := ih (i + 1) cs (by intro s0 hs0; have := hcs s0 hs0; omega) os e h
        refine ⟨by omega, by simp [List.length_cons]; omega, this.2.2⟩

theorem findPlaceholders_bounds (paras : List String) (s e : Nat)
    (h : findPlaceholders paras = (some s, some e)) :
    s < e ∧ e < paras.length := by
  have := scanParagraphs_bounds paras 0 none (by intro s0 hs0; cases hs0) (some s) e h
  exact ⟨this.2.2 s rfl, by omega⟩

theorem scanParagraphs_skip (xs : List String)
    (hxs : ∀ x ∈ xs, startIn x = false ∧ endIn x = false) :
    ∀ (l : List String) (i : Nat) (cs : Option Nat),
    scanParagraphs (xs ++ l) i cs = scanParagraphs l (i + xs.length) cs := by
  induction xs with
  | nil => intro l i cs; simp
  | cons x t ih =>
    intro l i cs
    have hx := hxs x (List.mem_cons_self x t)
    rw [List.cons_append, scanParagraphs, if_neg (by simp [hx.1]), if_neg (by simp [hx.2])]
    rw [ih (fun y hy => hxs y (List.mem_cons_of_mem x hy)) l (i + 1) cs]
    have : i + 1 + t.length = i + (t.length + 1) := by omega
    rw [this, List.length_cons]

theorem scanParagraphs_start (p : String) (hp : startIn p = true)
    (l : List String) (i : Nat) (cs : Option Nat) :
    scanParagraphs (p :: l) i cs = scanParagraphs l (i + 1) (some i) := by
  rw [scanParagraphs, if_pos hp]

theorem scanParagraphs_end (r : String) (hr1 : startIn r = false) (hr2 : endIn r = true)
    (l : List String) (i : Nat) (cs : Option Nat) :
    scanParagraphs (r :: l) i cs = (cs, some i) := by
  rw [scanParagraphs, if_neg (by simp [hr1]), if_pos hr2]

/-- C6 (amended): the scan of src/main.py lines 157-165 keeps
overwriting `content_start`, so for a document of the shape
`xs ++ p :: ys ++ q :: zs ++ r :: ws` — `p`, `q` both containing
`<<START_CONTENT>>`, `r` the first paragraph containing
`<<END_CONTENT>>` (without a start marker), `xs`, `ys`, `zs` free of
both markers — it records the index of the LAST start paragraph `q`
before `r`, not the first one `p`, together with the index of `r`. -/
theorem findPlaceholders_last_start_before_first_end
    (xs ys zs ws : List String) (p q r : String)
    (hxs : ∀ x ∈ xs, startIn x = false ∧ endIn x = false)
    (hys : ∀ x ∈ ys, startIn x = false ∧ endIn x = false)
    (hzs : ∀ x ∈ zs, startIn x = false ∧ endIn x = false)
    (hp : startIn p = true) (hq : startIn q = true)
    (hr1 : startIn r = false) (hr2 : endIn r = true) :
    findPlaceholders (xs ++ p :: (ys ++ q :: (zs ++ r :: ws))) =
      (some (xs.length + 1 + ys.length),
       some (xs.length + ys.length + zs.length + 2)) := by
  unfold findPlaceholders
  rw [scanParagraphs_skip xs hxs, scanParagraphs_start p hp,
    scanParagraphs_skip ys hys, scanParagraphs_start q hq,
    scanParagraphs_skip zs hzs, scanParagraphs_end r hr1 hr2]
  have h1 : 0 + xs.length + 1 + ys.length + 1 + zs.length =
      xs.length + ys.length + zs.length + 2 := by omega
  have h2 : 0 + xs.length + 1 + ys.length = xs.length + 1 + ys.length := by omega
  rw [h1, h2]

/-- Witness for C6's amended theorem: two start paragraphs directly
followed by an end paragraph; the scan returns indices (1, 2). -/
theorem findPlaceholders_last_start_witness :
    startIn "<<START_CONTENT>>" = true ∧ startIn "<<END_CONTENT>>" = false ∧
    endIn "<<END_CONTENT>>" = true ∧
    findPlaceholders ["<<START_CONTENT>>", "<<START_CONTENT>>", "<<END_CONTENT>>"] =
      (some 1, some 2) :=
  ⟨by decide, by decide, by decide,
    findPlaceholders_last_start_before_first_end [] [] [] []
      "<<START_CONTENT>>" "<<START_CONTENT>>" "<<END_CONTENT>>"
      (by decide) (by decide) (by decide) (by decide) (by decide) (by decide) (by decide)⟩

/-- Counterexample to C6 as stated: in a document whose paragraphs 0 and
1 both contain `<<START_CONTENT>>` and whose paragraph 2 contains
`<<END_CONTENT>>`, the claim says the earliest start paragraph (index 0)
is recorded; the code records index 1. -/
theorem findPlaceholders_first_start_cex :
    findPlaceholders ["<<START_CONTENT>>", "<<START_CONTENT>>", "<<END_CONTENT>>"] ≠
        (some 0, some 2) ∧
    findPlaceholders ["<<START_CONTENT>>", "<<START_CONTENT>>", "<<END_CONTENT>>"] =
        (some 1, some 2) := by
  constructor
  · decide
  · decide

theorem set_take_drop {α : Type} :
    ∀ (l : List α) (s e : Nat) (x : α), s < e → e ≤ l.length →
    (l.take (s + 1) ++ l.drop e).set s x = l.take s ++ x :: l.drop e := by
  intro l
  induction l with
  | nil =>
    intro s e x hse hel
    simp at hel
    omega
  | cons a t ih =>
    intro s e x hse hel
    cases s with
    | zero =>
      obtain ⟨e2, rfl⟩ : ∃ e2, e = e2 + 1 := ⟨e - 1, by omega⟩
      simp [List.set]
    | succ s2 =>
      obtain ⟨e2, rfl⟩ : ∃ e2, e = e2 + 1 := ⟨e - 1, by omega⟩
      simp only [List.take_succ_cons, List.drop_succ_cons, List.cons_append, List.set]
      rw [List.append_eq, ih s2 e2 x (by omega) (by simpa using hel)]

/-- C1 (amended): for a template whose placeholder scan finds markers at
indices `s < e`, `update_document_with_content` produces a saved
document equal to the prefix strictly before the start marker, then the
intro message in place of the start-marker paragraph (its text is
overwritten, not cleared), then the unchanged suffix from the
still-intact end marker on, with the rendered question blocks appended
at the very end of the document — not between the markers. -/
theorem update_document_found_layout (paras : List String) (intro_message : String)
    (questions : List Question) (s e : Nat)
    (h : findPlaceholders paras = (some s, some e)) :
    update_document_with_content paras intro_message questions =
      ⟨paras.take s ++ intro_message ::
        (paras.drop e ++ (questions.map renderQuestion).flatten), true⟩ := by
  obtain ⟨hse, hel⟩ := findPlaceholders_bounds paras s e h
  unfold update_document_with_content
  rw [h]
  show UpdateResult.mk
      ((removeLoop paras s e).set s intro_message ++ (questions.map renderQuestion).flatten)
      true = _
  rw [removeLoop_eq paras s e hse (by omega),
    set_take_drop paras s e intro_message hse (by omega)]
  simp

/-- Witness for C1's amended theorem at a concrete five-paragraph
template with one question. -/
theorem update_document_found_layout_witness :
    findPlaceholders ["a", "<<START_CONTENT>>", "mid", "<<END_CONTENT>>", "b"] =
        (some 1, some 3) ∧
    update_document_with_content ["a", "<<START_CONTENT>>", "mid", "<<END_CONTENT>>", "b"]
        "INTRO" [qInvalidAnswer] =
      ⟨(["a", "<<START_CONTENT>>", "mid", "<<END_CONTENT>>", "b"] : List String).take 1 ++
        "INTRO" ::
          ((["a", "<<START_CONTENT>>", "mid", "<<END_CONTENT>>", "b"] : List String).drop 3 ++
            (([qInvalidAnswer].map renderQuestion)).flatten), true⟩ :=
  ⟨by decide,
    update_document_found_layout ["a", "<<START_CONTENT>>", "mid", "<<END_CONTENT>>", "b"]
      "INTRO" [qInvalidAnswer] 1 3 (by decide)⟩

/-- Counterexample to C1 as stated: the claim requires both marker
paragraphs to end up with empty text while staying in place (so the
result would contain empty marker paragraphs around the inserted
blocks).  On the template `["<<START_CONTENT>>", "x", "<<END_CONTENT>>"]`
the code instead yields `["INTRO", "<<END_CONTENT>>"]`: the start marker
is overwritten with the intro message, the end marker keeps its
placeholder text, and no paragraph of the result is empty at all. -/
theorem update_document_markers_not_cleared_cex :
    (update_document_with_content ["<<START_CONTENT>>", "x", "<<END_CONTENT>>"]
        "INTRO" []).saved = ["INTRO", "<<END_CONTENT>>"] ∧
    ¬ ("" ∈ (update_document_with_content ["<<START_CONTENT>>", "x", "<<END_CONTENT>>"]
        "INTRO" []).saved) := by
  constructor
  · decide
  · decide

/-- C2 (amended): when either placeholder is missing,
`update_document_with_content` performs no mutation, but it does not
fail either: no `PlaceholderNotFound` error exists in the code — it logs
a warning (src/main.py line 204), still saves the document (lines
206-207), and returns the path, so an (unchanged) output document IS
produced. -/
theorem update_document_missing_marker_unchanged (paras : List String)
    (intro_message : String) (questions : List Question)
    (h : (findPlaceholders paras).1 = none ∨ (findPlaceholders paras).2 = none) :
    update_document_with_content paras intro_message questions = ⟨paras, false⟩ := by
  unfold update_document_with_content
  rcases hfp : findPlaceholders paras with ⟨os, oe⟩
  rw [hfp] at h
  cases os with
  | none => cases oe <;> rfl
  | some s =>
    cases oe with
    | none => rfl
    | some e =>
      rcases h with h | h <;> simp at h

/-- Witness for C2's amended theorem: a document containing only the end
marker is saved unchanged with no error. -/
theorem update_document_missing_marker_unchanged_witness :
    ((findPlaceholders ["<<END_CONTENT>>"]).1 = none ∨
      (findPlaceholders ["<<END_CONTENT>>"]).2 = none) ∧
    update_document_with_content ["<<END_CONTENT>>"] "INTRO" [] =
      ⟨["<<END_CONTENT>>"], false⟩ :=
  ⟨Or.inl (by decide),
    update_document_missing_marker_unchanged ["<<END_CONTENT>>"] "INTRO" []
      (Or.inl (by decide))⟩

/-- Counterexample to C2 as stated: for the marker-free document
`["hello"]` the claim says the operation fails and produces no output
document; the code raises nothing and still saves (and returns the path
of) the unchanged document — `update_document_with_content` is a total
function whose saved output equals the input here. -/
theorem update_document_missing_marker_saves_cex :
    update_document_with_content ["hello"] "INTRO" [] = ⟨["hello"], false⟩ := by
  decide

/-- C3 (amended): the rendering phase of `main` never removes a file on
any path — the script contains no cleanup at all (the template copy is
created with `delete=False`, and there is no `finally` block, scoped
file object or `os.remove` anywhere), so the temporary template copy,
the intermediate document and the artifact all outlive the run whether
the conversion succeeds or fails. -/
theorem render_fileops_never_removed (temp_docx_path collection_name : String)
    (quiz_number overall : Nat) (conversion_ok : Bool) :
    (mainRenderFileOps temp_docx_path collection_name quiz_number overall
        conversion_ok).all (fun op => !op.isRemove) = true := by
  cases conversion_ok <;>
    simp [mainRenderFileOps, updateDocumentFileOps, convertFileOps, FileOp.isRemove]

/-- Counterexample to C3 as stated: on the successful run with template
copy `/tmp/tmpabc.docx`, that temporary file is created during rendering
and no removal operation of any kind appears in the run's file trace, so
it is not removed before the run ends. -/
theorem render_fileops_orphan_cex :
    FileOp.create "/tmp/tmpabc.docx" ∈
        mainRenderFileOps "/tmp/tmpabc.docx" "GK" 1 2 true ∧
    (mainRenderFileOps "/tmp/tmpabc.docx" "GK" 1 2 true).all
        (fun op => !op.isRemove) = true := by
  constructor
  · decide
  · decide

/-- C4 (amended): `send_pdf_to_channel` makes exactly one send attempt —
its body is a single `try`/`except` with no loop, retry budget or delay
(src/main.py lines 245-255) — and a `TelegramError` of any kind is
caught and merely logged, so the run never reports a delivery failure:
delivery succeeds iff the single attempt succeeds. -/
theorem send_pdf_single_attempt (attemptOutcome : Nat → DeliveryOutcome) :
    (send_pdf_to_channel attemptOutcome).1 = 1 ∧
    ((send_pdf_to_channel attemptOutcome).2 = true ↔
      attemptOutcome 0 = DeliveryOutcome.success) := by
  refine ⟨rfl, ?_⟩
  unfold send_pdf_to_channel
  rcases h : attemptOutcome 0 <;> simp [h]

/-- Counterexample to C4 as stated: against a delivery that fails
transiently twice and then succeeds, the claim says the send is retried
and delivery succeeds on the third of three attempts; the code makes a
single attempt and the document is not delivered. -/
theorem send_pdf_no_retry_cex :
    send_pdf_to_channel transientTwiceThenSuccess = (1, false) ∧
    send_pdf_to_channel transientTwiceThenSuccess ≠ (3, true) := by
  constructor
  · decide
  · decide

theorem findEntry_setEntry {κ : Type} [DecidableEq κ] :
    ∀ (store : List (κ × Nat)) (key : κ) (c v : Nat),
    findEntry store key = some c → findEntry (setEntry store key v) key = some v := by
  intro store
  induction store with
  | nil => intro key c v h; simp [findEntry] at h
  | cons kv rest ih =>
    intro key c v h
    obtain ⟨k, w⟩ := kv
    by_cases hk : k = key
    · rw [setEntry, if_pos hk, findEntry, if_pos hk]
    · rw [findEntry, if_neg hk] at h
      rw [setEntry, if_neg hk, findEntry, if_neg hk]
      exact ih key c v h

theorem findEntry_append_single {κ : Type} [DecidableEq κ] :
    ∀ (store : List (κ × Nat)) (key : κ) (v : Nat),
    findEntry store key = none → findEntry (store ++ [(key, v)]) key = some v := by
  intro store
  induction store with
  | nil => intro key v _; simp [findEntry]
  | cons kv rest ih =>
    intro key v h
    obtain ⟨k, w⟩ := kv
    by_cases hk : k = key
    · rw [findEntry, if_pos hk] at h
      cases h
    · rw [findEntry, if_neg hk] at h
      rw [List.cons_append, findEntry, if_neg hk]
      exact ih key v h

theorem get_quiz_number_state (store : List (String × Nat)) (collection_name : String) :
    findEntry (get_quiz_number store collection_name).1 collection_name =
      some (get_quiz_number store collection_name).2 := by
  unfold get_quiz_number
  rcases h : findEntry store collection_name with _ | c
  · simpa using findEntry_append_single store collection_name 1 h
  · simpa using findEntry_setEntry store collection_name c (c + 1) h

/-- C5 (amended): `get_quiz_number` is an incrementing counter, not an
idempotent accept: each call bumps the stored count of the collection by
one, so a second call returns one more than the first and leaves the
store in a different observable state than a single call. -/
theorem get_quiz_number_increments (store : List (String × Nat))
    (collection_name : String) :
    (get_quiz_number (get_quiz_number store collection_name).1 collection_name).2 =
        (get_quiz_number store collection_name).2 + 1 ∧
    findEntry (get_quiz_number (get_quiz_number store collection_name).1
          collection_name).1 collection_name =
        some ((get_quiz_number store collection_name).2 + 1) := by
  rcases h : findEntry store collection_name with _ | c
  · have hf : findEntry (store ++ [(collection_name, 1)]) collection_name = some 1 :=
      findEntry_append_single store collection_name 1 h
    simp only [get_quiz_number, h, hf]
    exact ⟨trivial, findEntry_setEntry _ collection_name 1 2 hf⟩
  · have hf : findEntry (setEntry store collection_name (c + 1)) collection_name =
        some (c + 1) :=
      findEntry_setEntry store collection_name c (c + 1) h
    simp only [get_quiz_number, h, hf]
    exact ⟨trivial, findEntry_setEntry _ collection_name (c + 1) (c + 1 + 1) hf⟩

/-- Counterexample to C5 as stated: starting from an empty counter
store, one call leaves the store holding count 1 for `"GK"`, a second
call leaves it holding count 2 — calling the operation twice does not
leave the persistent store in the same observable state as calling it
once. -/
theorem get_quiz_number_not_idempotent_cex :
    (get_quiz_number (get_quiz_number [] "GK").1 "GK").1 ≠ (get_quiz_number [] "GK").1 ∧
    (get_quiz_number [] "GK").1 = [("GK", 1)] ∧
    (get_quiz_number (get_quiz_number [] "GK").1 "GK").1 = [("GK", 2)] := by
  refine ⟨?_, ?_, ?_⟩
  · decide
  · decide
  · decide

/-- C8: an answer key that is not one of `a`, `b`, `c`, `d` up to
ASCII case maps to no option index (`get_correct_option_index` returns
`None`, src/main.py lines 49-51), and `main` then skips the question
silently (lines 291-293): the poll list for a batch containing such a
question equals the poll list for the batch without it. -/
theorem invalid_answer_key_skips_poll (key : String) (q : Question)
    (pre post : List Question) (hq : q.answer = some key)
    (ha : pyLower key ≠ "a") (hb : pyLower key ≠ "b")
    (hc : pyLower key ≠ "c") (hd : pyLower key ≠ "d") :
    get_correct_option_index key = none ∧
    mainPolls (pre ++ q :: post) = mainPolls (pre ++ post) := by
  have hidx : get_correct_option_index key = none := by
    simp [get_correct_option_index, ha, hb, hc, hd]
  refine ⟨hidx, ?_⟩
  unfold mainPolls
  rw [List.filterMap_append, List.filterMap_append]
  congr 1
  rw [List.filterMap_cons_none]
  simp [hq, hidx]

/-- Witness for C8 at a concrete question with answer key `"e"`: it is
skipped, leaving no poll. -/
theorem invalid_answer_key_skips_poll_witness :
    qInvalidAnswer.answer = some "e" ∧ pyLower "e" ≠ "a" ∧ pyLower "e" ≠ "b" ∧
    pyLower "e" ≠ "c" ∧ pyLower "e" ≠ "d" ∧
    (get_correct_option_index "e" = none ∧
      mainPolls ([] ++ qInvalidAnswer :: []) = mainPolls ([] ++ [])) :=
  ⟨rfl, by decide, by decide, by decide, by decide,
    invalid_answer_key_skips_poll "e" qInvalidAnswer [] [] rfl
      (by decide) (by decide) (by decide) (by decide)⟩

theorem get_quiz_day_state (store : List (Nat × Nat)) (today : Nat) :
    findEntry (get_quiz_day store today).1 today = some (get_quiz_day store today).2 := by
  unfold get_quiz_day
  rcases h : findEntry store today with _ | d
  · rcases hm : maxDateRecord store with _ | r <;>
      simpa using findEntry_append_single store today _ h
  · simpa using h

/-- C9: `get_quiz_day` (src/main.py lines 53-68) is idempotent within a
calendar date: the first call on a date either reads an existing record
or inserts one, and a second call on the same date finds that record and
returns the same day number with the store unchanged — so the day number
in the intro message (line 97) and the one used in `main` (line 272)
agree within a run. -/
theorem get_quiz_day_idempotent (store : List (Nat × Nat)) (today : Nat) :
    get_quiz_day (get_quiz_day store today).1 today = get_quiz_day store today := by
  have h1 := get_quiz_day_state store today
  rcases hp : get_quiz_day store today with ⟨s1, d1⟩
  rw [hp] at h1
  unfold get_quiz_day
  rw [h1]

/-- C10 (amended, fallback part): when the explanation reaching
`send_quiz_to_channel` is `None` (in particular when the `Explanation`
field was absent, since `main` passes `question.get('Explanation',
None)`) or a float `nan`, the poll is sent with the non-empty fallback
explanation `"@CurrentAdda"` (src/main.py lines 122-123). -/
theorem explanation_fallback_nonempty (question : String) (options : List String)
    (idx : Nat) (e : PyVal) (h : e = PyVal.pyNone ∨ e = PyVal.pyNaN) :
    (send_quiz_to_channel question options idx e).explanation =
        PyVal.pyStr "@CurrentAdda" ∧
    (send_quiz_to_channel question options idx e).explanation ≠ PyVal.pyStr "" := by
  rcases h with h | h <;> subst h <;> exact ⟨rfl, by simp [send_quiz_to_channel]⟩

/-- Witness for C10's amended theorem at a `None` explanation. -/
theorem explanation_fallback_nonempty_witness :
    (PyVal.pyNone = PyVal.pyNone ∨ PyVal.pyNone = PyVal.pyNaN) ∧
    ((send_quiz_to_channel "q" [] 0 PyVal.pyNone).explanation =
        PyVal.pyStr "@CurrentAdda" ∧
      (send_quiz_to_channel "q" [] 0 PyVal.pyNone).explanation ≠ PyVal.pyStr "") :=
  ⟨Or.inl rfl, explanation_fallback_nonempty "q" [] 0 PyVal.pyNone (Or.inl rfl)⟩

/-- Counterexample to C10's trailing universal claim ("the poll is
always sent with a non-empty explanation string"): a present but empty
string explanation is neither `None` nor `nan`, so src/main.py line 122
passes it through and the poll is sent with an empty explanation. -/
theorem explanation_empty_string_passthrough_cex :
    (send_quiz_to_channel "q" [] 0 (PyVal.pyStr "")).explanation = PyVal.pyStr "" := by
  decide
